import Mathlib

/-!
Shallow embedding of the in-memory grid engine of SF Commit Studio.

The embedded code is the webview controller `src/media/main.js` (state object,
`updateFilteredData`, pagination and selection handlers, `commitChanges`,
`handleCommitResult`) together with `_buildCommitMessage` from the extension-host
panel source (`src/unnamed/part_004`).

Modelling conventions:
* JS arrays become `List`, the JS `Set` of selected ids becomes a duplicate-free
  `List String` in insertion order (`Set.add` appends when absent, `Set.delete`
  removes the sole occurrence).
* Record fields are strings; an absent (`undefined`) field is modelled as `""`,
  which is faithful because every read of a field in the embedded code goes
  through `a[column] || ''` (and the filter handlers only ever see present
  fields with the same `''`-collapse behaviour for falsy values).
* `Array.prototype.sort` with a comparator `c` is required by the language
  spec to be a stable sort keeping `a` before `b` whenever `c(a,b) <= 0`; for
  the total, transitive relation used here every stable sort computes the same
  list, so it is embedded as `List.insertionSort` (which is stable) over the
  relation "comparator result is non-positive". JS sorts the array in place;
  the embedding returns the updated `allMetadata` explicitly, sorted exactly
  when the code's `data` variable still aliases `state.allMetadata` at the
  `data.sort` call.
* String comparison `<` / `>` on JS strings is UTF-16 code-unit lexicographic
  order, embedded as Lean's lexicographic `String` order (identical on the
  code-point ranges exercised here).
-/

inductive Tab where
  | all
  | selected
deriving DecidableEq

inductive SortDirection where
  | asc
  | desc
deriving DecidableEq

/-- The sortable/filterable columns of the grid (`data-sort` keys of main.js). -/
inductive Column where
  | id
  | componentName
  | type
  | modifiedBy
  | date
deriving DecidableEq

/-- One metadata change record, as delivered to the webview. -/
structure MetadataItem where
  id : String
  componentName : String
  type : String
  modifiedBy : String
  date : String
deriving DecidableEq

/-- JS `a[column]`, with an absent field collapsed to `""` (the code's `|| ''`). -/
def getField (m : MetadataItem) : Column → String
  | Column.id => m.id
  | Column.componentName => m.componentName
  | Column.type => m.type
  | Column.modifiedBy => m.modifiedBy
  | Column.date => m.date

/-- The column filters of `state.filters`; `""` means the filter is inactive
(JS truthiness of the stored string). -/
structure Filters where
  name : String
  type : String
  user : String
deriving DecidableEq

/-- JS `haystack.includes(needle)`: substring containment. -/
def jsIncludes (haystack needle : String) : Bool :=
  decide (needle.data <:+: haystack.data)

/-- JS `toLowerCase()` (ASCII-relevant part), written over the character list
so concrete runs evaluate. -/
def jsToLower (s : String) : String :=
  ⟨s.data.map Char.toLower⟩

/-- Lexicographic comparison of character lists (JS string `<`), written as a
structural recursion so that concrete runs evaluate. -/
def charListLt : List Char → List Char → Bool
  | [], [] => false
  | [], _ :: _ => true
  | _ :: _, [] => false
  | a :: as, b :: bs => if a < b then true else if b < a then false else charListLt as bs

/-- JS string comparison `a < b` (code-unit lexicographic; identical to
code-point order on the basic multilingual plane handled here). -/
def jsStrLt (a b : String) : Bool :=
  charListLt a.data b.data

/-- The boolean relation fed to the stable sort: `true` iff the main.js
comparator (lines 404-411) returns a value `<= 0`, i.e. the first argument may
stay before the second. -/
def sortLe (column : Column) (direction : SortDirection) (a b : MetadataItem) : Bool :=
  let valA := getField a column
  let valB := getField b column
  match direction with
  | SortDirection.asc => !(jsStrLt valB valA)
  | SortDirection.desc => !(jsStrLt valA valB)

/-- Step 1 of `updateFilteredData`: scope by tab. -/
def applyTabFilter (tab : Tab) (selectedIds : List String) (data : List MetadataItem) :
    List MetadataItem :=
  if tab = Tab.selected then data.filter (fun item => selectedIds.contains item.id) else data

/-- Step 2 of `updateFilteredData`: the three column filters, AND-combined,
each skipped when its stored string is empty (JS falsy). -/
def applyColumnFilters (f : Filters) (data0 : List MetadataItem) : List MetadataItem :=
  let data1 :=
    if f.name ≠ "" then
      data0.filter (fun item => jsIncludes (jsToLower item.componentName) f.name)
    else data0
  let data2 :=
    if f.type ≠ "" then data1.filter (fun item => item.type == f.type) else data1
  if f.user ≠ "" then
    data2.filter (fun item => jsIncludes (jsToLower item.modifiedBy) f.user)
  else data2

/-- The stable-sort relation as a decidable `Prop` relation. -/
def jsSortRel (column : Column) (direction : SortDirection) :
    MetadataItem → MetadataItem → Prop :=
  fun a b => sortLe column direction a b = true

instance (column : Column) (direction : SortDirection) :
    DecidableRel (jsSortRel column direction) :=
  fun _ _ => instDecidableEqBool _ _

/-- The full derivation pipeline of `updateFilteredData`: tab scope, then
column filters, then stable sort. This is the spec's `deriveView`. -/
def deriveView (records : List MetadataItem) (selectedIds : List String) (tab : Tab)
    (filters : Filters) (column : Column) (direction : SortDirection) :
    List MetadataItem :=
  List.insertionSort (jsSortRel column direction)
    (applyColumnFilters filters (applyTabFilter tab selectedIds records))

/-- In main.js, `data` still aliases `state.allMetadata` at the in-place
`data.sort` call exactly when no `filter` reassigned it: the tab is `'all'`
and every column filter is inactive. -/
def sortsInPlace (tab : Tab) (f : Filters) : Bool :=
  decide (tab = Tab.all) && decide (f.name = "") && decide (f.type = "") &&
    decide (f.user = "")

/-- The webview controller state (the mutable `state` object of main.js,
pagination flattened). -/
structure GridState where
  allMetadata : List MetadataItem
  selectedIds : List String
  currentTab : Tab
  sortColumn : Column
  sortDirection : SortDirection
  filters : Filters
  currentPage : Nat
  pageSize : Nat
  filteredMetadata : List MetadataItem
deriving DecidableEq

/-- `updateFilteredData` (main.js lines 383-422): recomputes
`state.filteredMetadata`; when the sort operated on the unfiltered alias it
also reorders `state.allMetadata` in place. No other state field is written. -/
def updateFilteredData (s : GridState) : GridState :=
  let view := deriveView s.allMetadata s.selectedIds s.currentTab s.filters
    s.sortColumn s.sortDirection
  { s with
    filteredMetadata := view
    allMetadata := if sortsInPlace s.currentTab s.filters then view else s.allMetadata }

/-- JS `Set.add`: appends when absent, keeps insertion order. -/
def setAdd (ids : List String) (id : String) : List String :=
  if ids.contains id then ids else ids ++ [id]

/-- `Math.ceil(len / pageSize)` on naturals (pageSize is one of 25/50/100 in
the page shell, in particular positive). -/
def jsCeilDiv (len pageSize : Nat) : Nat :=
  (len + pageSize - 1) / pageSize

/-- `Math.ceil(len / pageSize) || 1` (main.js lines 549 and 565). -/
def totalPagesOr1 (len pageSize : Nat) : Nat :=
  max (jsCeilDiv len pageSize) 1

/-- `getPageSlice`: `filteredMetadata.slice(start, start + pageSize)`. -/
def getPageSlice (s : GridState) : List MetadataItem :=
  (s.filteredMetadata.drop ((s.currentPage - 1) * s.pageSize)).take s.pageSize

/-- `metadataLoaded` handler: replace the collection, reset to page 1,
recompute the view. -/
def handleMetadataLoaded (items : List MetadataItem) (s : GridState) : GridState :=
  updateFilteredData { s with allMetadata := items, currentPage := 1 }

/-- Name-filter input handler (stores the lowercased value, resets to page 1). -/
def filterNameInput (value : String) (s : GridState) : GridState :=
  updateFilteredData
    { s with filters := { s.filters with name := jsToLower value }, currentPage := 1 }

/-- Type-filter change handler. -/
def filterTypeChange (value : String) (s : GridState) : GridState :=
  updateFilteredData
    { s with filters := { s.filters with type := value }, currentPage := 1 }

/-- User-filter input handler (stores the lowercased value, resets to page 1). -/
def filterUserInput (value : String) (s : GridState) : GridState :=
  updateFilteredData
    { s with filters := { s.filters with user := jsToLower value }, currentPage := 1 }

/-- `switchTab`: set the tab, reset to page 1, recompute the view. -/
def switchTab (tab : Tab) (s : GridState) : GridState :=
  updateFilteredData { s with currentTab := tab, currentPage := 1 }

/-- Page-size change handler: new size, page 1, no view recomputation. -/
def pageSizeChange (n : Nat) (s : GridState) : GridState :=
  { s with pageSize := n, currentPage := 1 }

/-- Prev-page button handler. -/
def btnPrevClick (s : GridState) : GridState :=
  if 1 < s.currentPage then { s with currentPage := s.currentPage - 1 } else s

/-- Next-page button handler (note: `Math.ceil(...)` without `|| 1` here). -/
def btnNextClick (s : GridState) : GridState :=
  let totalPages := jsCeilDiv s.filteredMetadata.length s.pageSize
  if s.currentPage < totalPages then { s with currentPage := s.currentPage + 1 } else s

/-- Header select-all change handler (main.js lines 181-190): adds or removes
every currently visible item's id, then re-renders — without recomputing
`state.filteredMetadata` and without touching `currentPage`. -/
def selectAllChange (isChecked : Bool) (s : GridState) : GridState :=
  let visibleItems := getPageSlice s
  { s with
    selectedIds :=
      visibleItems.foldl
        (fun ids item => if isChecked then setAdd ids item.id else ids.erase item.id)
        s.selectedIds }

/-- `commitResult` handler, restricted to its state effect: on success the
selection set is cleared (`state.selectedIds.clear()`); on failure nothing but
DOM control re-enablement happens. -/
def handleCommitResult (success : Bool) (s : GridState) : GridState :=
  if success then { s with selectedIds := [] } else s

/-- `updateUI`'s commit-button enablement: trimmed-non-empty message and a
non-empty selection. -/
def jsTrim (s : String) : String :=
  ⟨((s.data.dropWhile Char.isWhitespace).reverse.dropWhile Char.isWhitespace).reverse⟩

def commitButtonEnabled (commitMessage : String) (s : GridState) : Bool :=
  decide (0 < (jsTrim commitMessage).length) && decide (0 < s.selectedIds.length)

/-- Payload of a commit-path request posted to the extension host. -/
structure CommitPayload where
  selectedIds : List String
  message : String
  userStoryRef : String
  targetOrg : String
deriving DecidableEq

/-- The two outbound messages the commit gesture can post. -/
inductive OutboundMessage where
  | confirmLargeCommit (itemCount : Nat) (payload : CommitPayload)
  | commitChanges (payload : CommitPayload)
deriving DecidableEq

/-- The commit message carried by an outbound commit-path request. -/
def messageOf : OutboundMessage → String
  | OutboundMessage.confirmLargeCommit _ p => p.message
  | OutboundMessage.commitChanges p => p.message

/-- `commitChanges` (main.js lines 255-294), as the request it posts:
`none` when the local guard `!message || selectedIds.length === 0` rejects,
otherwise the confirm-large request above 50 selected ids and the direct
commit request at 50 or fewer. -/
def commitChangesGesture (message userStoryRef targetOrg : String) (s : GridState) :
    Option OutboundMessage :=
  let selectedIds := s.selectedIds
  if message = "" ∨ selectedIds.length = 0 then none
  else if 50 < selectedIds.length then
    some (OutboundMessage.confirmLargeCommit selectedIds.length
      ⟨selectedIds, message, userStoryRef, targetOrg⟩)
  else
    some (OutboundMessage.commitChanges ⟨selectedIds, message, userStoryRef, targetOrg⟩)

/-- `_buildCommitMessage` from the extension-host panel: prepend the trimmed
user-story reference in brackets when it is truthy after trimming. -/
def buildCommitMessage (commitMsg : String) (userStoryRef : Option String) : String :=
  match userStoryRef with
  | some ref => if jsTrim ref ≠ "" then "[" ++ jsTrim ref ++ "] " ++ commitMsg else commitMsg
  | none => commitMsg

/-- A rendered grid row as far as `toggleSelection` observes and patches it:
its `data-id`, the presence of the `selected` CSS class, and the checkbox's
checked state. -/
structure RenderedRow where
  id : String
  selectedClass : Bool
  checkboxChecked : Bool
deriving DecidableEq

/-- `createRow`'s selection-relevant output for one item. -/
def renderRow (item : MetadataItem) (isSelected : Bool) : RenderedRow :=
  { id := item.id, selectedClass := isSelected, checkboxChecked := isSelected }

/-- `renderGrid`'s output: the rows of the current page slice. -/
def renderGrid (s : GridState) : List RenderedRow :=
  (getPageSlice s).map (fun item => renderRow item (s.selectedIds.contains item.id))

/-- `querySelector` on the grid body for `tr[data-id=...]`: the first matching
rendered row. -/
def findRow (rows : List RenderedRow) (id : String) : Option RenderedRow :=
  rows.find? (fun r => r.id == id)

/-- Patch the first row with the given id in place (class + checkbox). -/
def patchFirstRow (rows : List RenderedRow) (id : String) (isSelected : Bool) :
    List RenderedRow :=
  match rows with
  | [] => []
  | r :: rest =>
    if r.id == id then
      { r with selectedClass := isSelected, checkboxChecked := isSelected } :: rest
    else r :: patchFirstRow rest id isSelected

/-- Result of one `toggleSelection` call: the controller state, the rendered
rows of the grid body, and whether a full `renderGrid` re-render ran. -/
structure ToggleResult where
  state : GridState
  rows : List RenderedRow
  fullRerender : Bool
deriving DecidableEq

/-- The id set after `toggleSelection`'s initial flip. -/
def toggledIds (ids : List String) (id : String) : List String :=
  if ids.contains id then ids.erase id else setAdd ids id

/-- `toggleSelection` (main.js lines 520-561). Flip membership; patch the
row's visuals if its row is found; if viewing the `selected` tab and the id
became deselected: remove the row (when found), recompute the view, and when
the current page fell past the last page clamp it and fully re-render. -/
def toggleSelection (id : String) (s0 : GridState) (rows : List RenderedRow) :
    ToggleResult :=
  let ids := toggledIds s0.selectedIds id
  let s := { s0 with selectedIds := ids }
  let isSelected := ids.contains id
  let rows1 :=
    match findRow rows id with
    | some _ => patchFirstRow rows id isSelected
    | none => rows
  if s.currentTab = Tab.selected ∧ isSelected = false then
    let rows2 :=
      match findRow rows id with
      | some _ => rows1.eraseP (fun r => r.id == id)
      | none => rows1
    let s2 := updateFilteredData s
    let totalPages := totalPagesOr1 s2.filteredMetadata.length s2.pageSize
    if totalPages < s2.currentPage then
      let s3 := { s2 with currentPage := max 1 totalPages }
      { state := s3, rows := renderGrid s3, fullRerender := true }
    else
      { state := s2, rows := rows2, fullRerender := false }
  else
    { state := s, rows := rows1, fullRerender := false }

/-- Characterization of surviving all three column filters. -/
def matchesFilters (f : Filters) (r : MetadataItem) : Prop :=
  (f.name ≠ "" → jsIncludes (jsToLower r.componentName) f.name = true) ∧
  (f.type ≠ "" → r.type = f.type) ∧
  (f.user ≠ "" → jsIncludes (jsToLower r.modifiedBy) f.user = true)

/-- `f2` contains every active condition of `f1` (and possibly more). -/
def filtersSubset (f1 f2 : Filters) : Prop :=
  (f1.name ≠ "" → f2.name = f1.name) ∧
  (f1.type ≠ "" → f2.type = f1.type) ∧
  (f1.user ≠ "" → f2.user = f1.user)

instance (f : Filters) (r : MetadataItem) : Decidable (matchesFilters f r) := by
  unfold matchesFilters
  infer_instance

instance (f1 f2 : Filters) : Decidable (filtersSubset f1 f2) := by
  unfold filtersSubset
  infer_instance

/-- The sort key of a record for a column: the raw field value, `""` if absent. -/
def fieldKey (column : Column) (m : MetadataItem) : String :=
  getField m column

def emptyFilters : Filters := ⟨"", "", ""⟩

/-- Concrete inputs for counterexamples and witnesses. -/
def itemAlpha : MetadataItem := ⟨"1", "Alpha", "X", "Bob", "2026-01-02T10:00:00Z"⟩

def itemBeta : MetadataItem := ⟨"2", "Beta", "Y", "Amy", "2026-01-01T10:00:00Z"⟩

/-- A state on the `all` tab with no filters, records not yet in date order. -/
def c1State : GridState :=
  { allMetadata := [itemAlpha, itemBeta], selectedIds := [], currentTab := Tab.all,
    sortColumn := Column.date, sortDirection := SortDirection.asc,
    filters := emptyFilters, currentPage := 1, pageSize := 25, filteredMetadata := [] }

def c2Parseable : MetadataItem := ⟨"1", "Alpha", "X", "Bob", "2026-01-01T00:00:00Z"⟩

def c2Unparseable : MetadataItem := ⟨"2", "Beta", "X", "Amy", "not-a-date"⟩

/-- Sorting ascending by the date column over one parseable and one
unparseable date value. -/
def c2State : GridState :=
  { allMetadata := [c2Parseable, c2Unparseable], selectedIds := [], currentTab := Tab.all,
    sortColumn := Column.date, sortDirection := SortDirection.asc,
    filters := emptyFilters, currentPage := 1, pageSize := 25, filteredMetadata := [] }

/-- The webview's initial state (main.js lines 14-32). -/
def initialState : GridState :=
  { allMetadata := [], selectedIds := [], currentTab := Tab.all,
    sortColumn := Column.date, sortDirection := SortDirection.desc,
    filters := emptyFilters, currentPage := 1, pageSize := 25, filteredMetadata := [] }

def mkItem (i : Nat) : MetadataItem :=
  ⟨toString i, "Comp" ++ toString i, "X", "bob", "d"⟩

/-- 26 records: one more than the default page size of 25. -/
def c3Items : List MetadataItem := (List.range 26).map (fun i => mkItem (i + 1))

/-- A user trace: load 26 records, select all visible on page 1, go to page 2,
select the remaining record, switch to the `selected` tab, go to page 2, then
uncheck the header select-all (deselecting the one visible record). -/
def c3Trace : GridState :=
  selectAllChange false (btnNextClick (switchTab Tab.selected (selectAllChange true
    (btnNextClick (selectAllChange true (handleMetadataLoaded c3Items initialState))))))

/-- A state viewing the `all` tab whose grid body is empty (no rendered rows),
so a row patch for any id must miss. -/
def c8State : GridState :=
  { allMetadata := [itemAlpha], selectedIds := [], currentTab := Tab.all,
    sortColumn := Column.date, sortDirection := SortDirection.desc,
    filters := emptyFilters, currentPage := 1, pageSize := 25,
    filteredMetadata := [itemAlpha] }

/-- A state with a selected record and an active name filter that the record
does not match. -/
def c6State : GridState :=
  { allMetadata := [itemAlpha], selectedIds := ["1"], currentTab := Tab.selected,
    sortColumn := Column.date, sortDirection := SortDirection.desc,
    filters := ⟨"z", "", ""⟩, currentPage := 1, pageSize := 25, filteredMetadata := [] }

/-- A state with exactly 51 selected ids (all present as records). -/
def c5Items : List MetadataItem := (List.range 51).map (fun i => mkItem (i + 1))

def c5State : GridState :=
  { allMetadata := c5Items, selectedIds := c5Items.map MetadataItem.id,
    currentTab := Tab.all, sortColumn := Column.date, sortDirection := SortDirection.desc,
    filters := emptyFilters, currentPage := 1, pageSize := 25,
    filteredMetadata := c5Items }

/-- A one-record state with that record selected. -/
def c10State : GridState :=
  { allMetadata := [itemAlpha], selectedIds := ["1"], currentTab := Tab.all,
    sortColumn := Column.date, sortDirection := SortDirection.desc,
    filters := emptyFilters, currentPage := 1, pageSize := 25,
    filteredMetadata := [itemAlpha] }

/-! ### Helper lemmas about the sort relation, the filter pipeline and trimming -/

theorem charListLt_iff : ∀ (l₁ l₂ : List Char), charListLt l₁ l₂ = true ↔ l₁ < l₂
  | [], [] => iff_of_false (by simp [charListLt]) (List.Lex.not_nil_right _ _)
  | [], b :: bs => iff_of_true rfl (List.nil_lt_cons b bs)
  | a :: as, [] => iff_of_false (by simp [charListLt]) (List.Lex.not_nil_right _ _)
  | a :: as, b :: bs => by
    by_cases h₁ : a < b
    · refine iff_of_true (by simp [charListLt, h₁]) (List.Lex.rel h₁)
    · by_cases h₂ : b < a
      · refine iff_of_false (by simp [charListLt, h₁, h₂]) ?_
        intro h
        cases h with
        | cons h => exact lt_irrefl a h₂
        | rel h => exact h₁ h
      · have hab : a = b := le_antisymm (not_lt.mp h₂) (not_lt.mp h₁)
        subst hab
        have : charListLt (a :: as) (a :: bs) = charListLt as bs := by
          simp [charListLt]
        rw [this, charListLt_iff as bs]
        exact (List.Lex.cons_iff).symm

theorem jsStrLt_iff (a b : String) : jsStrLt a b = true ↔ a < b := by
  rw [jsStrLt, charListLt_iff, String.lt_iff_toList_lt]
  exact Iff.rfl

theorem jsStrLt_eq_false_iff (a b : String) : jsStrLt a b = false ↔ b ≤ a := by
  rw [← Bool.not_eq_true, jsStrLt_iff, not_lt]

theorem jsSortRel_iff_asc (column : Column) (a b : MetadataItem) :
    jsSortRel column SortDirection.asc a b ↔ getField a column ≤ getField b column := by
  simp only [jsSortRel, sortLe, Bool.not_eq_true']
  exact jsStrLt_eq_false_iff _ _

theorem jsSortRel_iff_desc (column : Column) (a b : MetadataItem) :
    jsSortRel column SortDirection.desc a b ↔ getField b column ≤ getField a column := by
  simp only [jsSortRel, sortLe, Bool.not_eq_true']
  exact jsStrLt_eq_false_iff _ _

instance (column : Column) (direction : SortDirection) :
    IsTotal MetadataItem (jsSortRel column direction) where
  total a b := by
    cases direction
    · rw [jsSortRel_iff_asc, jsSortRel_iff_asc]
      exact le_total _ _
    · rw [jsSortRel_iff_desc, jsSortRel_iff_desc]
      exact le_total _ _

instance (column : Column) (direction : SortDirection) :
    IsTrans MetadataItem (jsSortRel column direction) where
  trans a b c hab hbc := by
    cases direction
    · rw [jsSortRel_iff_asc] at hab hbc ⊢
      exact le_trans hab hbc
    · rw [jsSortRel_iff_desc] at hab hbc ⊢
      exact le_trans hbc hab

theorem mem_applyTabFilter {tab : Tab} {sel : List String} {data : List MetadataItem}
    {r : MetadataItem} :
    r ∈ applyTabFilter tab sel data ↔
      r ∈ data ∧ (tab = Tab.selected → sel.contains r.id) := by
  by_cases h : tab = Tab.selected
  · subst h
    simp [applyTabFilter, List.mem_filter]
  · simp [applyTabFilter, h]

theorem mem_applyColumnFilters {f : Filters} {data : List MetadataItem} {r : MetadataItem} :
    r ∈ applyColumnFilters f data ↔ r ∈ data ∧ matchesFilters f r := by
  unfold applyColumnFilters matchesFilters
  by_cases h1 : f.name = "" <;> by_cases h2 : f.type = "" <;> by_cases h3 : f.user = "" <;>
    simp [h1, h2, h3, List.mem_filter, and_assoc] <;> tauto

theorem mem_deriveView {records : List MetadataItem} {sel : List String} {tab : Tab}
    {f : Filters} {column : Column} {direction : SortDirection} {r : MetadataItem} :
    r ∈ deriveView records sel tab f column direction ↔
      r ∈ records ∧ (tab = Tab.selected → sel.contains r.id) ∧ matchesFilters f r := by
  unfold deriveView
  rw [List.mem_insertionSort, mem_applyColumnFilters, mem_applyTabFilter, and_assoc]

theorem dropWhile_forall_iff {p : Char → Bool} (l : List Char) :
    (∀ c ∈ l.dropWhile p, p c) ↔ (∀ c ∈ l, p c) := by
  induction l with
  | nil => simp
  | cons a t ih =>
    by_cases h : p a
    · simp [List.dropWhile_cons, h, ih]
    · simp [List.dropWhile_cons, h]

theorem jsTrim_eq_empty_iff {s : String} :
    jsTrim s = "" ↔ ∀ c ∈ s.data, c.isWhitespace := by
  rw [String.ext_iff]
  show ((s.data.dropWhile Char.isWhitespace).reverse.dropWhile Char.isWhitespace).reverse
      = ([] : List Char) ↔ _
  rw [List.reverse_eq_nil_iff, List.dropWhile_eq_nil_iff]
  constructor
  · intro h c hc
    exact (dropWhile_forall_iff s.data).mp (fun x hx => h x (List.mem_reverse.mpr hx)) c hc
  · intro h c hc
    exact h c (List.dropWhile_subset _ (List.mem_reverse.mp hc))

/-! ### Claim theorems -/

/-- Claim C4: the commit message sent to the boundary is `[trim(r)] m` when the
user-story reference `r` has a non-whitespace character, and `m` unchanged when
`r` is absent or whitespace-only; in particular `"Fix layout"` with ref
`"US-123"` gives `"[US-123] Fix layout"` and with a whitespace-only ref gives
`"Fix layout"`. -/
theorem buildCommitMessage_spec (m r : String) :
    ((∃ c ∈ r.data, ¬ c.isWhitespace) →
        buildCommitMessage m (some r) = "[" ++ jsTrim r ++ "] " ++ m) ∧
    ((∀ c ∈ r.data, c.isWhitespace) → buildCommitMessage m (some r) = m) ∧
    buildCommitMessage m none = m ∧
    buildCommitMessage ("Fix layout") (some ("US-123")) = "[US-123] Fix layout" ∧
    buildCommitMessage ("Fix layout") (some ("   ")) = "Fix layout" := by
  refine ⟨?_, ?_, rfl, by decide, by decide⟩
  · intro h
    have hne : jsTrim r ≠ "" := by
      rw [ne_eq, jsTrim_eq_empty_iff]
      obtain ⟨c, hc, hcw⟩ := h
      intro hall
      exact hcw (hall c hc)
    simp [buildCommitMessage, hne]
  · intro h
    have he : jsTrim r = "" := jsTrim_eq_empty_iff.mpr h
    simp [buildCommitMessage, he]

/-- Witness for C4 at the spec's concrete example. -/
theorem buildCommitMessage_spec_witness :
    buildCommitMessage ("Fix layout") (some ("US-123")) =
      "[" ++ jsTrim ("US-123") ++ "] " ++ "Fix layout" :=
  (buildCommitMessage_spec ("Fix layout") ("US-123")).1 (by decide)

/-- Claim C5: with a non-empty selection and non-empty message, the commit
gesture posts the large-submission confirmation request (item count plus the
same payload as a direct submit) exactly when more than 50 ids are selected,
and the direct commit request at 50 or fewer. -/
theorem commitChanges_threshold (message userStoryRef targetOrg : String) (s : GridState)
    (hm : message ≠ "") (hs : s.selectedIds ≠ []) :
    (50 < s.selectedIds.length →
        commitChangesGesture message userStoryRef targetOrg s =
          some (OutboundMessage.confirmLargeCommit s.selectedIds.length
            ⟨s.selectedIds, message, userStoryRef, targetOrg⟩)) ∧
    (s.selectedIds.length ≤ 50 →
        commitChangesGesture message userStoryRef targetOrg s =
          some (OutboundMessage.commitChanges
            ⟨s.selectedIds, message, userStoryRef, targetOrg⟩)) := by
  have hlen : s.selectedIds.length ≠ 0 := by simpa using hs
  constructor
  · intro h50
    simp [commitChangesGesture, hm, hlen, h50]
  · intro h50
    simp [commitChangesGesture, hm, hlen, not_lt.mpr h50]

/-- Witness for C5: 51 selected ids route to the confirmation request. -/
theorem commitChanges_threshold_witness :
    commitChangesGesture ("msg") ("ref") ("org") c5State =
      some (OutboundMessage.confirmLargeCommit c5State.selectedIds.length
        ⟨c5State.selectedIds, "msg", "ref", "org"⟩) :=
  (commitChanges_threshold ("msg") ("ref") ("org") c5State (by decide) (by decide)).1
    (by decide)

/-- Claim C9: a failed commit leaves the selection set and the record
collection exactly as they were; a successful commit clears the selection
wholesale (and does not itself change the local record collection). -/
theorem handleCommitResult_atomicity (success : Bool) (s : GridState) :
    (success = false → handleCommitResult success s = s) ∧
    (success = true → (handleCommitResult success s).selectedIds = [] ∧
        (handleCommitResult success s).allMetadata = s.allMetadata) := by
  constructor
  · intro h
    simp [handleCommitResult, h]
  · intro h
    simp [handleCommitResult, h]

/-- Witness for C9 at a concrete state. -/
theorem handleCommitResult_atomicity_witness :
    handleCommitResult false c10State = c10State ∧
      (handleCommitResult true c10State).selectedIds = [] :=
  ⟨(handleCommitResult_atomicity false c10State).1 rfl,
   ((handleCommitResult_atomicity true c10State).2 rfl).1⟩

/-- Claim C10: a non-empty whitespace-only commit message passes the local
guard of `commitChanges` (which rejects only the empty string), so a request
carrying the message verbatim is posted; meanwhile the trimmed-non-empty check
governs only the commit button's enablement. -/
theorem whitespace_message_not_rejected (message userStoryRef targetOrg : String)
    (s : GridState) (hne : message ≠ "") (hws : ∀ c ∈ message.data, c.isWhitespace)
    (hsel : s.selectedIds ≠ []) :
    (∃ out, commitChangesGesture message userStoryRef targetOrg s = some out ∧
        messageOf out = message) ∧
    commitButtonEnabled message s = false := by
  have hlen : s.selectedIds.length ≠ 0 := by simpa using hsel
  constructor
  · by_cases h50 : 50 < s.selectedIds.length
    · refine ⟨OutboundMessage.confirmLargeCommit s.selectedIds.length
        ⟨s.selectedIds, message, userStoryRef, targetOrg⟩, ?_, rfl⟩
      simp [commitChangesGesture, hne, hlen, h50]
    · refine ⟨OutboundMessage.commitChanges
        ⟨s.selectedIds, message, userStoryRef, targetOrg⟩, ?_, rfl⟩
      simp [commitChangesGesture, hne, hlen, h50]
  · have he : jsTrim message = "" := jsTrim_eq_empty_iff.mpr hws
    simp [commitButtonEnabled, he]

/-- Witness for C10: the message consisting of three spaces is sent verbatim. -/
theorem whitespace_message_not_rejected_witness :
    (∃ out, commitChangesGesture ("   ") ("ref") ("org") c10State = some out ∧
        messageOf out = "   ") ∧
    commitButtonEnabled ("   ") c10State = false :=
  whitespace_message_not_rejected ("   ") ("ref") ("org") c10State (by decide) (by decide)
    (by decide)

/-- Claim C7: filter monotonicity — when `f2` contains every active condition
of `f1` (plus possibly more), every record of the derived view under `f2` also
appears in the derived view under `f1`. -/
theorem deriveView_filter_monotone (records : List MetadataItem) (sel : List String)
    (tab : Tab) (column : Column) (direction : SortDirection) (f1 f2 : Filters)
    (hsub : filtersSubset f1 f2) :
    ∀ r ∈ deriveView records sel tab f2 column direction,
      r ∈ deriveView records sel tab f1 column direction := by
  intro r hr
  rw [mem_deriveView] at hr ⊢
  obtain ⟨hrec, htab, hm⟩ := hr
  refine ⟨hrec, htab, ?_, ?_, ?_⟩
  · intro h1
    have he : f2.name = f1.name := hsub.1 h1
    have := hm.1 (by rw [he]; exact h1)
    rwa [he] at this
  · intro h1
    have he : f2.type = f1.type := hsub.2.1 h1
    have := hm.2.1 (by rw [he]; exact h1)
    rwa [he] at this
  · intro h1
    have he : f2.user = f1.user := hsub.2.2 h1
    have := hm.2.2 (by rw [he]; exact h1)
    rwa [he] at this

/-- Witness for C7: a record passing a name filter also appears in the
unfiltered view. -/
theorem deriveView_filter_monotone_witness :
    itemAlpha ∈ deriveView [itemAlpha] [] Tab.all emptyFilters Column.date
      SortDirection.desc :=
  deriveView_filter_monotone [itemAlpha] [] Tab.all Column.date SortDirection.desc
    emptyFilters ⟨"alpha", "", ""⟩ (by decide) itemAlpha (by decide)

/-- Claim C6 counterexample: with an active name filter that the selected
record does not match, the record is in the selection set and still present in
the collection, yet absent from the `selected` tab's derived view — the
claimed equivalence fails as stated. -/
theorem selection_tab_counterexample :
    ¬ ((("1" ∈ c6State.selectedIds ∧ ∃ r ∈ c6State.allMetadata, r.id = "1") ↔
        ∃ r ∈ deriveView c6State.allMetadata c6State.selectedIds Tab.selected
            c6State.filters c6State.sortColumn c6State.sortDirection, r.id = "1")) := by
  decide

/-- Claim C6 amended: with no active column filters, an id is selected and its
record present exactly when the record appears in the `selected` tab's derived
view; under arbitrary filters only the right-to-left direction survives (every
record shown on the `selected` tab is selected — a selected record filtered
out of view nevertheless stays selected). -/
theorem selection_tab_consistency (records : List MetadataItem) (sel : List String)
    (column : Column) (direction : SortDirection) (id : String) :
    ((sel.contains id ∧ ∃ r ∈ records, r.id = id) ↔
        ∃ r ∈ deriveView records sel Tab.selected emptyFilters column direction,
          r.id = id) ∧
    (∀ f : Filters,
        (∃ r ∈ deriveView records sel Tab.selected f column direction, r.id = id) →
          sel.contains id) := by
  constructor
  · constructor
    · rintro ⟨hsel, r, hr, hid⟩
      refine ⟨r, mem_deriveView.mpr ⟨hr, fun _ => by rwa [hid], ?_⟩, hid⟩
      refine ⟨?_, ?_, ?_⟩ <;> intro hf <;> exact absurd rfl hf
    · rintro ⟨r, hr, hid⟩
      have hm := mem_deriveView.mp hr
      exact ⟨by rw [← hid]; exact hm.2.1 rfl, r, hm.1, hid⟩
  · rintro f ⟨r, hr, hid⟩
    have hm := mem_deriveView.mp hr
    rw [← hid]
    exact hm.2.1 rfl

/-- Witness for C6 at a concrete selected record. -/
theorem selection_tab_consistency_witness :
    ∃ r ∈ deriveView [itemAlpha] ["1"] Tab.selected emptyFilters Column.date
        SortDirection.desc, r.id = "1" :=
  ((selection_tab_consistency [itemAlpha] ["1"] Column.date SortDirection.desc ("1")).1).mp
    ⟨by decide, itemAlpha, by decide, rfl⟩

/-- Claim C2 counterexample: sorting ascending by the date column, the record
with the unparseable date `"not-a-date"` ends up after the record with a
parseable ISO date — the comparator is plain string comparison, so unparseable
values do not sort as the lowest as the claim states (string `"not-a-date"`
is greater than `"2026-01-01T00:00:00Z"`). -/
theorem date_sort_counterexample :
    (updateFilteredData c2State).filteredMetadata = [c2Parseable, c2Unparseable] ∧
    (updateFilteredData c2State).filteredMetadata.head? ≠ some c2Unparseable := by
  decide

/-- Claim C2 amended: in the sort step every column — the date column
included — is compared as case-sensitive raw strings with an absent value
treated as the empty string: ascending runs sort the view by `≤` on that
string key, descending runs by `≥` (so absent dates sort lowest as `""`, but
unparseable non-empty dates sort by their literal string value). -/
theorem sortStep_raw_string_order (s : GridState) :
    (s.sortDirection = SortDirection.asc →
        (updateFilteredData s).filteredMetadata.Pairwise
          (fun a b => fieldKey s.sortColumn a ≤ fieldKey s.sortColumn b)) ∧
    (s.sortDirection = SortDirection.desc →
        (updateFilteredData s).filteredMetadata.Pairwise
          (fun a b => fieldKey s.sortColumn b ≤ fieldKey s.sortColumn a)) := by
  constructor <;> intro hdir
  · exact List.Pairwise.imp
      (fun hab => (jsSortRel_iff_asc s.sortColumn _ _).mp (hdir ▸ hab))
      (List.sorted_insertionSort (jsSortRel s.sortColumn s.sortDirection)
        (applyColumnFilters s.filters
          (applyTabFilter s.currentTab s.selectedIds s.allMetadata)))
  · exact List.Pairwise.imp
      (fun hab => (jsSortRel_iff_desc s.sortColumn _ _).mp (hdir ▸ hab))
      (List.sorted_insertionSort (jsSortRel s.sortColumn s.sortDirection)
        (applyColumnFilters s.filters
          (applyTabFilter s.currentTab s.selectedIds s.allMetadata)))

/-- Witness for C2's amended statement on the counterexample state. -/
theorem sortStep_raw_string_order_witness :
    (updateFilteredData c2State).filteredMetadata.Pairwise
      (fun a b => fieldKey c2State.sortColumn a ≤ fieldKey c2State.sortColumn b) :=
  (sortStep_raw_string_order c2State).1 rfl

theorem applyTabFilter_all (sel : List String) (data : List MetadataItem) :
    applyTabFilter Tab.all sel data = data := by
  simp [applyTabFilter]

theorem applyColumnFilters_inactive {f : Filters} (h1 : f.name = "") (h2 : f.type = "")
    (h3 : f.user = "") (data : List MetadataItem) : applyColumnFilters f data = data := by
  simp [applyColumnFilters, h1, h2, h3]

theorem insertionSort_idem (column : Column) (direction : SortDirection)
    (l : List MetadataItem) :
    List.insertionSort (jsSortRel column direction)
        (List.insertionSort (jsSortRel column direction) l) =
      List.insertionSort (jsSortRel column direction) l :=
  (List.sorted_insertionSort (jsSortRel column direction) l).insertionSort_eq

theorem sortsInPlace_eq_true {tab : Tab} {f : Filters} (h : sortsInPlace tab f = true) :
    tab = Tab.all ∧ f.name = "" ∧ f.type = "" ∧ f.user = "" := by
  simpa [sortsInPlace, and_assoc] using h

theorem updateFilteredData_idem (s : GridState) :
    updateFilteredData (updateFilteredData s) = updateFilteredData s := by
  cases hp : sortsInPlace s.currentTab s.filters
  · simp [updateFilteredData, hp]
  · obtain ⟨htab, hn, ht, hu⟩ := sortsInPlace_eq_true hp
    have hp' : sortsInPlace Tab.all s.filters = true := by
      rw [← htab]
      exact hp
    simp [updateFilteredData, deriveView, applyTabFilter, applyColumnFilters,
      hp, hp', htab, hn, ht, hu, insertionSort_idem]

/-- Claim C1 counterexample: on the `all` tab with no active filters the sort
operates on `state.allMetadata` itself, so `updateFilteredData` reorders the
record collection — it is not mutation-free as claimed. -/
theorem deriveView_mutates_records :
    (updateFilteredData c1State).allMetadata ≠ c1State.allMetadata := by
  decide

/-- Claim C1 amended: `updateFilteredData` never touches the selection set and
running it twice in a row changes nothing further (identical inputs give
identical output), but it is not pure in its record input: exactly when the
`all` tab is active and no column filter is active, the record collection is
sorted in place (it then equals the derived view); otherwise it is left
untouched. -/
theorem updateFilteredData_purity (s : GridState) :
    (updateFilteredData s).selectedIds = s.selectedIds ∧
    updateFilteredData (updateFilteredData s) = updateFilteredData s ∧
    (sortsInPlace s.currentTab s.filters = false →
        (updateFilteredData s).allMetadata = s.allMetadata) ∧
    (sortsInPlace s.currentTab s.filters = true →
        (updateFilteredData s).allMetadata = (updateFilteredData s).filteredMetadata) := by
  refine ⟨rfl, updateFilteredData_idem s, ?_, ?_⟩
  · intro h
    simp [updateFilteredData, h]
  · intro h
    simp [updateFilteredData, h]

/-- Witness for C1's amended conditional clauses at concrete states. -/
theorem updateFilteredData_purity_witness :
    (updateFilteredData c1State).allMetadata =
        (updateFilteredData c1State).filteredMetadata ∧
    (updateFilteredData c6State).allMetadata = c6State.allMetadata :=
  ⟨(updateFilteredData_purity c1State).2.2.2 (by decide),
   (updateFilteredData_purity c6State).2.2.1 (by decide)⟩

/-- Claim C8 counterexample: toggling an id whose row is not in the rendered
grid body (here: empty grid body, `all` tab) does not trigger a full
re-render — the targeted patch is silently skipped, contrary to the claimed
fall-back-to-full-re-render policy. -/
theorem toggle_missing_row_counterexample :
    findRow ([] : List RenderedRow) ("1") = none ∧
    (toggleSelection ("1") c8State []).fullRerender = false := by
  decide

/-- Claim C8 amended: when the targeted patch cannot locate the row, the
controller does not throw: the membership flip still happens, the rendered
rows are left untouched, and a full re-render occurs only when the
selected-tab page-clamp path fires (deselection shrank the view past the
current page). -/
theorem toggle_missing_row_policy (id : String) (s : GridState) (rows : List RenderedRow)
    (hmiss : findRow rows id = none) :
    (toggleSelection id s rows).state.selectedIds = toggledIds s.selectedIds id ∧
    ((toggleSelection id s rows).fullRerender = true ↔
      (s.currentTab = Tab.selected ∧ (toggledIds s.selectedIds id).contains id = false ∧
        totalPagesOr1
            (updateFilteredData
              { s with selectedIds := toggledIds s.selectedIds id }).filteredMetadata.length
            s.pageSize <
          s.currentPage)) ∧
    ((toggleSelection id s rows).fullRerender = false →
        (toggleSelection id s rows).rows = rows) := by
  simp only [toggleSelection, hmiss]
  split_ifs with h1 h2
  · refine ⟨rfl, ?_, ?_⟩
    · exact iff_of_true rfl ⟨h1.1, h1.2, h2⟩
    · intro h
      simp at h
  · refine ⟨rfl, ?_, fun _ => rfl⟩
    constructor
    · intro h
      simp at h
    · rintro ⟨-, -, hp⟩
      exact absurd hp h2
  · refine ⟨rfl, ?_, fun _ => rfl⟩
    constructor
    · intro h
      simp at h
    · rintro ⟨ht, hc, -⟩
      exact h1 ⟨ht, hc⟩

/-- Witness for C8's amended statement: missing row on the `all` tab — the
selection flips and the rendered rows stay unchanged. -/
theorem toggle_missing_row_policy_witness :
    (toggleSelection ("1") c8State []).state.selectedIds =
        toggledIds c8State.selectedIds ("1") ∧
    (toggleSelection ("1") c8State []).rows = ([] : List RenderedRow) :=
  ⟨(toggle_missing_row_policy ("1") c8State [] (by decide)).1,
   (toggle_missing_row_policy ("1") c8State [] (by decide)).2.2 (by decide)⟩

/-- Claim C3: evaluation at the failing trace. After loading 26 records
(default page size 25), selecting all of them, viewing page 2 of the
`selected` tab and unchecking the header select-all, the handler (main.js
lines 181-190) recomputes neither the view nor the page: `currentPage` stays 2
while the derived view recomputed from the surviving selection has 25 records,
i.e. a single page — `currentPage` lies outside `[1, max(1, ceil(L/P))]`. -/
theorem selectAll_pagination_bug :
    c3Trace.currentPage = 2 ∧
    (deriveView c3Trace.allMetadata c3Trace.selectedIds c3Trace.currentTab c3Trace.filters
        c3Trace.sortColumn c3Trace.sortDirection).length = 25 ∧
    totalPagesOr1 25 c3Trace.pageSize = 1 := by
  decide
